import Mathlib

/-!
Verification of the naebak-notifications-service core engine.

Shallow embedding of the Python sources:
* `models.py`              — enums `NotificationType`, `NotificationChannel`,
                             `NotificationPriority`
* `template_system.py`     — `UserPreferenceManager.should_send_notification`
* `delivery_tracker.py`    — `DeliveryStatus`, `FailureReason`, `DeliveryRecord`,
                             `update_delivery_status`, `mark_for_retry`,
                             `cancel_delivery`, `_should_retry`,
                             `_calculate_next_retry`, `_categorize_failure`
* `constants.py`           — `RETRY_DELAYS`, `get_retry_delay`,
                             `get_max_content_length`, `validate_content_length`
* `celery_tasks.py`        — the retry countdown of `send_notification`
* `routing_system.py`      — `CircuitBreaker`
* `delivery_channels.py`   — `SMSDeliveryChannel.send` content preparation,
                             `InAppNotificationChannel.send`
* `notifications.py`       — `InAppChannel.send`
* `analytics.py`           — minute/hour/day metric buckets of
                             `MetricsCollector._store_metric_in_redis`

Wall-clock instants are modelled as natural numbers (seconds); times of day
as seconds since midnight; message texts as `List Char` (Python `str` is a
character sequence).  Redis structures are modelled explicitly where an
operation touches them.
-/

namespace Naebak

/-- `models.NotificationType` (models.py lines 44-68). -/
inductive NotificationType where
  | welcome | security | message | complaint | election | system | reminder | marketing
  deriving DecidableEq, Repr

/-- `.value` string of `NotificationType`. -/
def NotificationType.val : NotificationType → String
  | .welcome => "welcome" | .security => "security" | .message => "message"
  | .complaint => "complaint" | .election => "election" | .system => "system"
  | .reminder => "reminder" | .marketing => "marketing"

/-- `models.NotificationChannel` (models.py lines 26-42). -/
inductive NotificationChannel where
  | email | sms | push | in_app
  deriving DecidableEq, Repr

/-- `.value` string of `NotificationChannel`. -/
def NotificationChannel.val : NotificationChannel → String
  | .email => "email" | .sms => "sms" | .push => "push" | .in_app => "in_app"

/-- `models.NotificationPriority` (models.py lines 94-110); this is the enum
`template_system.py` imports — it has four members and no `CRITICAL`. -/
inductive NotificationPriority where
  | low | normal | high | urgent
  deriving DecidableEq, Repr

/-- A user preference row (`models.UserNotificationPreference`), restricted to
the fields `should_send_notification` reads.  Quiet-hour bounds are stored
parsed, as seconds since midnight (`time.fromisoformat` of the stored
`"HH:MM"` string); `none` models Python-falsy (`None` / empty) values. -/
structure UserNotificationPreference where
  is_enabled : Bool
  frequency : String
  quiet_hours_start : Option Nat
  quiet_hours_end : Option Nat
  deriving DecidableEq, Repr

/-- `UserPreferenceManager.should_send_notification`
(template_system.py lines 308-366).  `pref` is the row found for
`(user_id, notification_type, channel)` (`none` when no row exists);
`current_time` is `datetime.now().time()` in seconds since midnight.
Returns the `(should_send, reason)` pair of the Python code. -/
def should_send_notification (pref : Option UserNotificationPreference)
    (notification_type : NotificationType) (channel : NotificationChannel)
    (priority : NotificationPriority) (current_time : Nat) : Bool × String :=
  match pref with
  | none =>
      if notification_type = .marketing then
        (false, "Marketing notifications disabled by default")
      else (true, "Default preference allows notification")
  | some p =>
      if p.is_enabled = false then
        (false, "User disabled " ++ notification_type.val ++
                " notifications via " ++ channel.val)
      else if priority = .urgent then
        (true, "Urgent notification overrides preferences")
      else
        let quiet_block :=
          match p.quiet_hours_start, p.quiet_hours_end with
          | some qs, some qe =>
              let in_quiet :=
                if qs ≤ qe then qs ≤ current_time ∧ current_time ≤ qe
                else current_time ≥ qs ∨ current_time ≤ qe
              decide in_quiet && decide (priority ≠ .high)
          | _, _ => false
        if quiet_block then (false, "Within user\x27s quiet hours")
        else if p.frequency = "disabled" then
          (false, "Notifications disabled for this type/channel")
        else if p.frequency = "daily" ∨ p.frequency = "weekly" then
          (true, "Notification will be batched (" ++ p.frequency ++ ")")
        else (true, "User preferences allow notification")

/-! ## Delivery tracker (`delivery_tracker.py`) -/

/-- `delivery_tracker.DeliveryStatus` (lines 37-49). -/
inductive DeliveryStatus where
  | pending | queued | sending | sent | delivered | read
  | failed | bounced | rejected | expired | cancelled
  deriving DecidableEq, Repr

/-- `delivery_tracker.FailureReason` (lines 59-70). -/
inductive FailureReason where
  | invalid_recipient | network_error | service_unavailable | rate_limited
  | authentication_failed | content_rejected | recipient_blocked
  | quota_exceeded | timeout | unknown
  deriving DecidableEq, Repr

/-- The dynamic fields of `delivery_tracker.DeliveryRecord` (lines 84-103).
`attempts` keeps `(timestamp, status)` of each appended `DeliveryAttempt`;
`cancellation_reason` models the `metadata[\x27cancellation_reason\x27]` entry. -/
structure DeliveryRecord where
  status : DeliveryStatus
  created_at : Nat
  updated_at : Nat
  attempts : List (Nat × DeliveryStatus)
  retry_count : Nat
  max_retries : Nat
  next_retry_at : Option Nat
  failure_reason : Option FailureReason
  delivered_at : Option Nat
  read_at : Option Nat
  cancellation_reason : Option (List Char)
  deriving DecidableEq, Repr

/-- `term` is a prefix of the second list. -/
def isPrefixChars : List Char → List Char → Bool
  | [], _ => true
  | _ :: _, [] => false
  | a :: as, b :: bs => a = b && isPrefixChars as bs

/-- `term` occurs in `msg` as a contiguous substring (Python `term in error_message`). -/
def containsTerm (term : List Char) : List Char → Bool
  | [] => isPrefixChars term []
  | c :: rest => isPrefixChars term (c :: rest) || containsTerm term rest

/-- Some term of `terms` occurs in `msg` (Python `any(term in error_message ...)`). -/
def containsAny (msg : List Char) (terms : List (List Char)) : Bool :=
  terms.any (fun t => containsTerm t msg)

/-- `DeliveryTracker._categorize_failure` (delivery_tracker.py lines 463-503).
`error_message = []` models Python-falsy `None`/`""`; `response_code = 0`
models falsy `None`/`0`. -/
def categorize_failure (error_message : List Char) (response_code : Nat) :
    FailureReason :=
  if error_message = [] ∧ response_code = 0 then .unknown
  else
    let msg := error_message.map Char.toLower
    if containsAny msg ["timeout".toList, "connection".toList, "network".toList] then
      .network_error
    else if containsAny msg ["auth".toList, "unauthorized".toList, "forbidden".toList] then
      .authentication_failed
    else if containsAny msg ["rate limit".toList, "throttle".toList, "quota".toList] then
      .rate_limited
    else if containsAny msg ["invalid".toList, "not found".toList, "does not exist".toList] then
      .invalid_recipient
    else if containsAny msg ["spam".toList, "blocked".toList, "rejected".toList] then
      .content_rejected
    else if response_code ≠ 0 then
      if response_code = 401 then .authentication_failed
      else if response_code = 403 then .recipient_blocked
      else if response_code = 404 then .invalid_recipient
      else if response_code = 429 then .rate_limited
      else if response_code ≥ 500 then .service_unavailable
      else .unknown
    else .unknown

/-- `DeliveryTracker._should_retry` (delivery_tracker.py lines 505-514). -/
def should_retry (failure_reason : FailureReason) : Bool :=
  let non_retryable_reasons : List FailureReason :=
    [.invalid_recipient, .recipient_blocked, .content_rejected, .authentication_failed]
  decide (failure_reason ∉ non_retryable_reasons)

/-- `constants.RETRY_DELAYS` (constants.py line 211), also the local `delays`
list of `DeliveryTracker._calculate_next_retry`. -/
def RETRY_DELAYS : List Nat := [60, 300, 900, 1800, 3600]

/-- The backoff delay of `DeliveryTracker._calculate_next_retry`
(delivery_tracker.py lines 516-523): `delays[min(retry_count - 1, len(delays) - 1)]`.
The function returns `utcnow() + delay`; we model the delay in seconds. -/
def calculate_next_retry_delay (retry_count : Nat) : Nat :=
  RETRY_DELAYS.getD (min (retry_count - 1) (RETRY_DELAYS.length - 1)) 0

/-- `constants.get_retry_delay` (constants.py lines 570-575); `attempt` is a
Python int, non-positive values return 0. -/
def get_retry_delay (attempt : Int) : Nat :=
  if attempt ≤ 0 then 0
  else RETRY_DELAYS.getD (min (attempt - 1).toNat (RETRY_DELAYS.length - 1)) 0

/-- The countdown expression of celery_tasks.py line 228,
`min(300, 60 * (2 ** notification.retry_count))`, as a function of the
`retry_count` value it reads. -/
def celery_retry_delay (retry_count : Nat) : Nat :=
  min 300 (60 * 2 ^ retry_count)

/-- The retry scheduling of `celery_tasks.send_notification`
(celery_tasks.py lines 221-229): on a failed delivery,
`notification.mark_failed(...)` first increments `retry_count`
(models.py line 349), and only then line 228 computes the countdown from the
already-incremented count.  Given the retry count before the failure,
returns the new count — the number of the retry being scheduled — and the
countdown in seconds. -/
def celery_schedule_retry (retry_count_before : Nat) : Nat × Nat :=
  let rc := retry_count_before + 1
  (rc, celery_retry_delay rc)

/-- `DeliveryTracker.update_delivery_status` (delivery_tracker.py lines 151-216),
restricted to the mutation of the found record (`now` is `datetime.utcnow()`
in seconds; Redis storage, callbacks, webhooks and analytics are outside the
record's state). -/
def update_delivery_status (r : DeliveryRecord) (status : DeliveryStatus)
    (error_message : List Char) (response_code : Nat) (now : Nat) :
    DeliveryRecord :=
  let r1 := { r with attempts := r.attempts ++ [(now, status)],
                     status := status, updated_at := now }
  if status = .delivered then { r1 with delivered_at := some now }
  else if status = .read then { r1 with read_at := some now }
  else if status = .failed ∨ status = .bounced ∨ status = .rejected then
    let reason := categorize_failure error_message response_code
    let r2 := { r1 with failure_reason := some reason }
    if r2.retry_count < r2.max_retries ∧ should_retry reason then
      { r2 with retry_count := r2.retry_count + 1,
                next_retry_at := some (now + calculate_next_retry_delay (r2.retry_count + 1)),
                status := .queued }
    else r2
  else r1

/-- `DeliveryTracker.mark_for_retry` (delivery_tracker.py lines 302-330).
`delay_seconds = 0` models Python-falsy `None`/`0` (the code tests
`if delay_seconds:`).  Returns the updated record and the boolean result. -/
def mark_for_retry (r : DeliveryRecord) (delay_seconds : Nat) (now : Nat) :
    DeliveryRecord × Bool :=
  if r.retry_count ≥ r.max_retries then (r, false)
  else
    let rc := r.retry_count + 1
    let nra := if delay_seconds ≠ 0 then now + delay_seconds
               else now + calculate_next_retry_delay rc
    ({ r with retry_count := rc, status := .queued,
              next_retry_at := some nra, updated_at := now }, true)

/-- `DeliveryTracker.cancel_delivery` (delivery_tracker.py lines 332-358).
`reason = []` models Python-falsy `None`/`""`.  Returns the updated record
and the boolean result. -/
def cancel_delivery (r : DeliveryRecord) (reason : List Char) (now : Nat) :
    DeliveryRecord × Bool :=
  if r.status = .delivered ∨ r.status = .read then (r, false)
  else
    let r1 := { r with status := .cancelled, updated_at := now }
    let r2 := if reason ≠ [] then { r1 with cancellation_reason := some reason }
              else r1
    (r2, true)

/-! ## Circuit breaker (`routing_system.py` lines 101-147) -/

/-- The `self.state` field of `routing_system.CircuitBreaker`
(`"CLOSED"`, `"OPEN"`, `"HALF_OPEN"`). -/
inductive CBState where
  | closed | opened | halfOpen
  deriving DecidableEq, Repr

/-- `routing_system.CircuitBreaker` mutable state; times are seconds. -/
structure CircuitBreaker where
  failure_threshold : Nat
  recovery_timeout : Nat
  failure_count : Nat
  last_failure_time : Option Nat
  state : CBState
  deriving DecidableEq, Repr

/-- `CircuitBreaker.__init__` with default arguments
(`failure_threshold=5`, `recovery_timeout=60`). -/
def CircuitBreaker.init : CircuitBreaker :=
  { failure_threshold := 5, recovery_timeout := 60, failure_count := 0,
    last_failure_time := none, state := .closed }

/-- `CircuitBreaker._should_attempt_reset` (routing_system.py lines 128-133):
`(utcnow() - last_failure_time).total_seconds() > recovery_timeout`. -/
def CircuitBreaker.should_attempt_reset (cb : CircuitBreaker) (now : Nat) : Bool :=
  match cb.last_failure_time with
  | none => true
  | some t => decide (now - t > cb.recovery_timeout)

/-- `CircuitBreaker._on_success` (routing_system.py lines 135-138). -/
def CircuitBreaker.on_success (cb : CircuitBreaker) : CircuitBreaker :=
  { cb with failure_count := 0, state := .closed }

/-- `CircuitBreaker._on_failure` (routing_system.py lines 140-147). -/
def CircuitBreaker.on_failure (cb : CircuitBreaker) (now : Nat) : CircuitBreaker :=
  let fc := cb.failure_count + 1
  { cb with failure_count := fc, last_failure_time := some now,
            state := if fc ≥ cb.failure_threshold then .opened else cb.state }

/-- `CircuitBreaker.call` (routing_system.py lines 112-127).  `success` is
whether the wrapped `func` returns normally.  The boolean result is `true`
when `func` was executed and `false` when the call was rejected with
"Circuit breaker is OPEN" (the raised exception of a failing `func` is
re-raised after `_on_failure`, so the state update is the same either way). -/
def CircuitBreaker.call (cb : CircuitBreaker) (now : Nat) (success : Bool) :
    CircuitBreaker × Bool :=
  match cb.state with
  | .opened =>
      if cb.should_attempt_reset now then
        let cb1 := { cb with state := .halfOpen }
        (if success then cb1.on_success else cb1.on_failure now, true)
      else (cb, false)
  | _ =>
      (if success then cb.on_success else cb.on_failure now, true)

/-- Reachability invariant of the breaker: whenever the breaker is `OPEN`,
at least `failure_threshold` failures have accumulated and a failure time
is recorded. -/
def CBInv (cb : CircuitBreaker) : Prop :=
  cb.state = .opened →
    cb.failure_threshold ≤ cb.failure_count ∧ cb.last_failure_time.isSome

/-! ## In-app delivery (`notifications.py`, `delivery_channels.py`) -/

/-- Result of the Redis/pubsub effects of `InAppChannel.send`
(notifications.py lines 271-312): the per-user list `user_notifications:{uid}`
after `lpush` + `ltrim(0, 99)`, the TTL set by `expire`, and the payloads
published on the pubsub channel `notifications:{uid}`. -/
structure InAppSendResult where
  queue : List String
  ttl : Nat
  published : List String
  deriving DecidableEq, Repr

/-- `InAppChannel.send` (notifications.py lines 271-312), Redis effects on the
per-user queue `q` (most recent first, as left-pushed). -/
def inAppChannelSend (q : List String) (payload : String) : InAppSendResult :=
  { queue := (payload :: q).take 100,
    ttl := 86400,
    published := [payload] }

/-- Result of the effects of `InAppNotificationChannel.send`
(delivery_channels.py lines 490-528): per-user queue and TTL (only touched
when a `redis_client` is configured) and the `new_notification` websocket
events emitted (only when a `websocket_client` is configured). -/
structure InAppDeliverResult where
  queue : List String
  ttl : Option Nat
  emitted : List String
  deriving DecidableEq, Repr

/-- `InAppNotificationChannel.send` (delivery_channels.py lines 490-528),
effects on the per-user queue `q` with current TTL `ttl0`;
`hasRedis`/`hasWs` are `\x27redis_client\x27 in self.config` and
`\x27websocket_client\x27 in self.config`. -/
def inAppDeliverySend (q : List String) (ttl0 : Option Nat)
    (hasRedis hasWs : Bool) (payload : String) : InAppDeliverResult :=
  { queue := if hasRedis then payload :: q else q,
    ttl := if hasRedis then some (86400 * 7) else ttl0,
    emitted := if hasWs then [payload] else [] }

/-! ## SMS content (`delivery_channels.py`, `constants.py`) -/

/-- The content preparation of `SMSDeliveryChannel.send`
(delivery_channels.py lines 296-301): bodies over 1600 characters are cut to
1597 characters plus `"..."`; everything else is passed to Twilio unchanged. -/
def prepare_sms_content (content : List Char) : List Char :=
  if content.length > 1600 then content.take 1597 ++ "...".toList
  else content

/-- `constants.DeliveryChannel` (the channels of `MAX_CONTENT_LENGTHS`). -/
inductive CDeliveryChannel where
  | email | sms | push | in_app | webhook
  deriving DecidableEq, Repr

/-- `constants.get_max_content_length` (constants.py lines 582-584) over
`MAX_CONTENT_LENGTHS` (lines 297-313); missing keys default to 1000. -/
def get_max_content_length (channel : CDeliveryChannel) (content_type : String) : Nat :=
  match channel with
  | .email => if content_type = "subject" then 200
              else if content_type = "body" then 50000 else 1000
  | .sms => if content_type = "body" then 160 else 1000
  | .push => if content_type = "title" then 50
             else if content_type = "body" then 200 else 1000
  | .in_app => if content_type = "title" then 100
               else if content_type = "body" then 1000 else 1000
  | .webhook => 1000

/-- `constants.validate_content_length` (constants.py lines 608-612). -/
def validate_content_length (content : List Char) (channel : CDeliveryChannel)
    (content_type : String) : Bool :=
  content.length ≤ get_max_content_length channel content_type

/-! ## Metric buckets (`analytics.py` lines 150-190)

A counter metric's events for one fixed `(metric_name, labels)` key, in flush
order.  `minute` is the absolute minute index of the event timestamp (so the
hour index is `minute / 60` and the day index is `minute / 1440`); metric
values are modelled as integers. -/

/-- One flushed `MetricPoint` of a counter metric. -/
structure MetricEvent where
  minute : Nat
  value : Int
  deriving DecidableEq, Repr

/-- Sum of the values of the events whose key under `g` is `k`
(the `zincrby` accumulation). -/
def sumAtKey (ev : List MetricEvent) (g : MetricEvent → Nat) (k : Nat) : Int :=
  (ev.map (fun e => if g e = k then e.value else 0)).sum

/-- The hour bucket: `zincrby(hour_key_redis, value, hour_key)` accumulates
every counter event of the hour. -/
def hourBucket (ev : List MetricEvent) (h : Nat) : Int :=
  sumAtKey ev (fun e => e.minute / 60) h

/-- The day bucket: `zincrby(daily_key, value, day_key)` accumulates every
counter event of the day. -/
def dayBucket (ev : List MetricEvent) (d : Nat) : Int :=
  sumAtKey ev (fun e => e.minute / 1440) d

/-- The minute bucket: `zadd(minute_key, {timestamp_key: value})` overwrites
the member's score, so the last event of the minute wins (0 when the minute
has no event). -/
def minuteBucket (ev : List MetricEvent) (m : Nat) : Int :=
  match (ev.filter (fun e => e.minute = m)).getLast? with
  | some e => e.value
  | none => 0

/-- Sum of the 60 minute-bucket values inside hour `h`. -/
def minuteSumOverHour (ev : List MetricEvent) (h : Nat) : Int :=
  ((List.range 60).map (fun i => minuteBucket ev (h * 60 + i))).sum

/-- Sum of the 24 hour-bucket values inside day `d`. -/
def hourSumOverDay (ev : List MetricEvent) (d : Nat) : Int :=
  ((List.range 24).map (fun i => hourBucket ev (d * 24 + i))).sum

/-! ## Sample data used by witnesses and counterexamples -/

/-- A delivery record that has exhausted its retry budget. -/
def exhaustedRecord : DeliveryRecord :=
  { status := .failed, created_at := 0, updated_at := 0, attempts := [],
    retry_count := 3, max_retries := 3, next_retry_at := none,
    failure_reason := none, delivered_at := none, read_at := none,
    cancellation_reason := none }

/-- A delivery record that has been handed to the provider (`Sent`). -/
def sentRecord : DeliveryRecord :=
  { status := .sent, created_at := 0, updated_at := 0, attempts := [],
    retry_count := 0, max_retries := 3, next_retry_at := none,
    failure_reason := none, delivered_at := none, read_at := none,
    cancellation_reason := none }

/-- A fresh delivery record in stage `Pending`. -/
def freshRecord : DeliveryRecord :=
  { status := .pending, created_at := 0, updated_at := 0, attempts := [],
    retry_count := 0, max_retries := 3, next_retry_at := none,
    failure_reason := none, delivered_at := none, read_at := none,
    cancellation_reason := none }

/-- A preference row that disables the type/channel pair. -/
def disabledPref : UserNotificationPreference :=
  { is_enabled := false, frequency := "immediate",
    quiet_hours_start := none, quiet_hours_end := none }

/-- An enabled preference with quiet hours 10:00-12:00. -/
def quietPref : UserNotificationPreference :=
  { is_enabled := true, frequency := "immediate",
    quiet_hours_start := some 36000, quiet_hours_end := some 43200 }

/-! ## C10 — `mark_for_retry` respects the retry budget -/

/-- Claim C10: when `retry_count ≥ max_retries`, `mark_for_retry` returns
`False` and leaves the record completely unchanged; consequently the
manual-retry path never raises `retry_count` above `max_retries`. -/
theorem mark_for_retry_budget :
    (∀ (r : DeliveryRecord) (d now : Nat), r.max_retries ≤ r.retry_count →
       mark_for_retry r d now = (r, false)) ∧
    (∀ (r : DeliveryRecord) (d now : Nat), r.retry_count ≤ r.max_retries →
       ((mark_for_retry r d now).1).retry_count ≤ r.max_retries) := by
  constructor
  · intro r d now h
    unfold mark_for_retry
    rw [if_pos h]
  · intro r d now h
    unfold mark_for_retry
    by_cases hge : r.retry_count ≥ r.max_retries
    · rw [if_pos hge]; exact h
    · rw [if_neg hge]; simp; omega

/-- Witness for C10: a concrete exhausted record is rejected unchanged, and a
fresh record stays within its budget. -/
theorem mark_for_retry_budget_witness :
    mark_for_retry exhaustedRecord 0 5 = (exhaustedRecord, false) ∧
    ((mark_for_retry freshRecord 0 5).1).retry_count ≤ freshRecord.max_retries := by
  refine ⟨mark_for_retry_budget.1 exhaustedRecord 0 5 (by decide), ?_⟩
  exact mark_for_retry_budget.2 freshRecord 0 5 (by decide)

/-! ## C6 — which records an explicit cancel can reach -/

/-- Counterexample to claim C6: a record whose status is `Sent` — past the
`Queued` stage — is successfully cancelled by `cancel_delivery` (result
`True`, status becomes `Cancelled`), where the claim says the request is
rejected and the record left unchanged. -/
theorem cancel_sent_record_succeeds :
    (cancel_delivery sentRecord [] 10).2 = true ∧
    ((cancel_delivery sentRecord [] 10).1).status = .cancelled ∧
    sentRecord.status = .sent := by
  constructor
  · rfl
  · exact ⟨rfl, rfl⟩

/-- Claim C6 (amended): an explicit cancel succeeds — the status becomes
`Cancelled` — if and only if the record's status is neither `Delivered` nor
`Read`; only those two post-delivery states are rejected, and a rejected
cancel leaves the record unchanged.  In particular `Sent`, `Sending` and even
`Failed` records can still be cancelled. -/
theorem cancel_delivery_iff_not_delivered :
    ∀ (r : DeliveryRecord) (reason : List Char) (now : Nat),
      ((cancel_delivery r reason now).2 = true ↔
        (r.status ≠ .delivered ∧ r.status ≠ .read)) ∧
      ((cancel_delivery r reason now).2 = true →
        ((cancel_delivery r reason now).1).status = .cancelled) ∧
      ((cancel_delivery r reason now).2 = false →
        (cancel_delivery r reason now).1 = r) := by
  intro r reason now
  unfold cancel_delivery
  by_cases h : r.status = .delivered ∨ r.status = .read
  · rw [if_pos h]
    refine ⟨by simp; tauto, by simp, fun _ => rfl⟩
  · rw [if_neg h]
    push_neg at h
    refine ⟨by simpa using h, ?_, by simp⟩
    intro _
    by_cases hr : reason = [] <;> simp [hr]

/-- Witness for C6 (amended): the `Sent` record is cancellable, a `Delivered`
record is rejected unchanged. -/
theorem cancel_delivery_iff_not_delivered_witness :
    ((cancel_delivery sentRecord [] 10).2 = true ↔
      (sentRecord.status ≠ .delivered ∧ sentRecord.status ≠ .read)) ∧
    ((cancel_delivery sentRecord [] 10).2 = true →
      ((cancel_delivery sentRecord [] 10).1).status = .cancelled) :=
  ⟨(cancel_delivery_iff_not_delivered sentRecord [] 10).1,
   (cancel_delivery_iff_not_delivered sentRecord [] 10).2.1⟩

/-! ## C1 — the urgent bypass -/

/-- Counterexample to claim C1: for a matching preference with
`enabled == false`, an `Urgent` notification is blocked — the evaluator
checks `is_enabled` before the urgent bypass — where the claim says the
result is `send` even then.  (The evaluator's priority enum,
`models.NotificationPriority`, moreover has no `Critical` member at all.) -/
theorem urgent_blocked_by_disabled_pref :
    (should_send_notification (some disabledPref) .security .sms .urgent 0).1
      = false := by
  rfl

/-- Claim C1 (amended): `Urgent` priority (the evaluator's highest; its enum
has no `Critical`) bypasses the quiet-hours and frequency filters but not the
enabled filter: with a matching preference, an `Urgent` notification yields
`send` if and only if the preference has `enabled == true`; with
`enabled == false` even `Urgent` is blocked. -/
theorem urgent_bypass_after_enabled_check :
    ∀ (p : UserNotificationPreference) (t : NotificationType)
      (ch : NotificationChannel) (ct : Nat),
      (p.is_enabled = true →
        should_send_notification (some p) t ch .urgent ct
          = (true, "Urgent notification overrides preferences")) ∧
      (p.is_enabled = false →
        (should_send_notification (some p) t ch .urgent ct).1 = false) := by
  intro p t ch ct
  constructor
  · intro h
    simp [should_send_notification, h]
  · intro h
    simp [should_send_notification, h]

/-- Witness for C1 (amended): with the quiet-hours preference (enabled) an
urgent notification inside quiet hours is sent; with the disabled preference
it is blocked. -/
theorem urgent_bypass_after_enabled_check_witness :
    should_send_notification (some quietPref) .security .sms .urgent 40000
      = (true, "Urgent notification overrides preferences") ∧
    (should_send_notification (some disabledPref) .security .sms .urgent 40000).1
      = false :=
  ⟨(urgent_bypass_after_enabled_check quietPref .security .sms 40000).1 rfl,
   (urgent_bypass_after_enabled_check disabledPref .security .sms 40000).2 rfl⟩

/-! ## C4 — the quiet-hours window -/

/-- Counterexample to claim C4: with quiet hours 10:00-12:00 (36000-43200
seconds) and priority `Normal`, a notification at exactly 12:00 is blocked
with the quiet-hours reason, although 43200 is outside the half-open
interval `[36000, 43200)` the claim describes: the code uses a closed
interval (`quiet_start <= current_time <= quiet_end`). -/
theorem quiet_hours_block_at_end_instant :
    should_send_notification (some quietPref) .message .email .normal 43200
      = (false, "Within user\x27s quiet hours") ∧
    ¬ (36000 ≤ 43200 ∧ 43200 < 43200) := by
  exact ⟨rfl, by omega⟩

/-- Claim C4 (amended): for every enabled preference with both quiet bounds
configured, the evaluator returns the quiet-hours block exactly when the
wall clock lies in the CLOSED interval `[quiet-start, quiet-end]` — when
`quiet-start > quiet-end` the wrapped condition is
`t ≥ quiet-start ∨ t ≤ quiet-end` — and the priority is neither `High` nor
`Urgent` (the evaluator's enum has no `Critical`). -/
theorem quiet_hours_block_iff_closed_interval :
    ∀ (p : UserNotificationPreference) (t : NotificationType)
      (ch : NotificationChannel) (pr : NotificationPriority) (ct qs qe : Nat),
      p.is_enabled = true → p.quiet_hours_start = some qs →
      p.quiet_hours_end = some qe →
      (should_send_notification (some p) t ch pr ct
          = (false, "Within user\x27s quiet hours") ↔
        ((if qs ≤ qe then qs ≤ ct ∧ ct ≤ qe else ct ≥ qs ∨ ct ≤ qe) ∧
          pr ≠ .high ∧ pr ≠ .urgent)) := by
  intro p t ch pr ct qs qe hen hqs hqe
  simp only [should_send_notification, hen, hqs, hqe]
  cases pr <;> by_cases hq : (if qs ≤ qe then qs ≤ ct ∧ ct ≤ qe
      else ct ≥ qs ∨ ct ≤ qe) <;>
    simp [hq] <;>
    by_cases hd : p.frequency = "disabled" <;>
    simp [hd] <;>
    by_cases hb : p.frequency = "daily" ∨ p.frequency = "weekly" <;>
    simp [hb]

/-- Witness for C4 (amended): at 11:00 a `Normal` notification under the
10:00-12:00 quiet preference is blocked with the quiet-hours reason. -/
theorem quiet_hours_block_iff_closed_interval_witness :
    should_send_notification (some quietPref) .message .email .normal 39600
      = (false, "Within user\x27s quiet hours") :=
  (quiet_hours_block_iff_closed_interval quietPref .message .email .normal
      39600 36000 43200 rfl rfl rfl).2 (by decide)

/-! ## C3 — the backoff schedule -/

/-- Counterexample to claim C3: before the first retry (n = 1) the Celery
task path waits 120 seconds, not the table's first element 60 that
`DeliveryTracker._calculate_next_retry` uses: `mark_failed` (models.py line
349) increments `retry_count` to 1 before celery_tasks.py line 228 computes
`min(300, 60 * 2 ** retry_count) = 120`. -/
theorem celery_backoff_differs_from_table :
    (celery_schedule_retry 0).1 = 1 ∧ (celery_schedule_retry 0).2 = 120 ∧
    calculate_next_retry_delay 1 = 60 ∧ (120 : Nat) ≠ 60 := by
  exact ⟨rfl, rfl, rfl, by omega⟩

/-- Claim C3 (amended): for every retry number n ≥ 1,
`DeliveryTracker._calculate_next_retry` and `constants.get_retry_delay`
schedule the n-th element of `[60, 300, 900, 1800, 3600]` with index n−1
clamped to the last element for n > 5; the Celery `send_notification` path
instead delays `min(300, 60·2^n)` seconds before retry n — 120, 240, then
300 for every later retry, never 60 — because `mark_failed` increments
`retry_count` before the countdown is computed from it. -/
theorem backoff_schedule :
    ∀ n : Nat, 1 ≤ n →
      (n ≤ 5 → calculate_next_retry_delay n = RETRY_DELAYS.getD (n - 1) 0) ∧
      (5 ≤ n → calculate_next_retry_delay n = 3600) ∧
      get_retry_delay (n : Int) = calculate_next_retry_delay n ∧
      ((celery_schedule_retry (n - 1)).1 = n ∧
        (celery_schedule_retry (n - 1)).2
          = if n ≤ 2 then 60 * 2 ^ n else 300) := by
  intro n hn
  refine ⟨?_, ?_, ?_, ?_, ?_⟩
  · intro h5
    interval_cases n <;> rfl
  · intro h5
    unfold calculate_next_retry_delay RETRY_DELAYS
    have : min (n - 1) ([60, 300, 900, 1800, 3600].length - 1) = 4 := by
      simp; omega
    rw [this]
    rfl
  · unfold get_retry_delay calculate_next_retry_delay
    have h0 : ¬ ((n : Int) ≤ 0) := by omega
    rw [if_neg h0]
    have : ((n : Int) - 1).toNat = n - 1 := by omega
    rw [this]
  · show n - 1 + 1 = n
    omega
  · show celery_retry_delay (n - 1 + 1) = _
    have hn1 : n - 1 + 1 = n := by omega
    rw [hn1]
    unfold celery_retry_delay
    by_cases h2 : n ≤ 2
    · rw [if_pos h2]
      interval_cases n <;> rfl
    · rw [if_neg h2]
      have h8 : (8 : Nat) ≤ 2 ^ n := by
        calc (8 : Nat) = 2 ^ 3 := by norm_num
        _ ≤ 2 ^ n := Nat.pow_le_pow_right (by omega) (by omega)
      exact Nat.min_eq_left (by omega)

/-- Witness for C3 (amended): the schedule at n = 1 and at n = 7. -/
theorem backoff_schedule_witness :
    (1 ≤ 5 → calculate_next_retry_delay 1 = RETRY_DELAYS.getD 0 0) ∧
    (5 ≤ 7 → calculate_next_retry_delay 7 = 3600) ∧
    get_retry_delay (7 : Int) = calculate_next_retry_delay 7 ∧
    (celery_schedule_retry 0).1 = 1 ∧
    ((celery_schedule_retry 0).2 = if 1 ≤ 2 then 60 * 2 ^ 1 else 300) := by
  refine ⟨(backoff_schedule 1 (by decide)).1, ?_, ?_, ?_, ?_⟩
  · exact (backoff_schedule 7 (by decide)).2.1
  · exact (backoff_schedule 7 (by decide)).2.2.1
  · exact (backoff_schedule 1 (by decide)).2.2.2.1
  · exact (backoff_schedule 1 (by decide)).2.2.2.2

/-! ## C9 — SMS truncation threshold -/

/-- Counterexample to claim C9: a 161-character SMS body is passed to the
provider unmodified — `SMSDeliveryChannel.send` truncates only bodies longer
than 1600 characters — where the claim says 161 characters is truncated
before delivery. -/
theorem sms_161_not_truncated :
    prepare_sms_content (List.replicate 161 'a') = List.replicate 161 'a' ∧
    (List.replicate 161 'a').length = 161 := by
  constructor
  · unfold prepare_sms_content
    rw [if_neg]
    simp
  · simp

/-- Claim C9 (amended): the SMS adapter delivers every body of at most 1600
characters unmodified — including bodies of exactly 160 and of 161
characters — and truncates longer bodies to 1597 characters plus `"..."`
(total 1600); separately, `constants.validate_content_length` deems an SMS
body valid exactly when it has at most 160 characters, but that check is not
part of the delivery path. -/
theorem sms_truncation_at_1600 :
    ∀ content : List Char,
      (content.length ≤ 1600 → prepare_sms_content content = content) ∧
      (1600 < content.length →
        prepare_sms_content content = content.take 1597 ++ "...".toList ∧
        (prepare_sms_content content).length = 1600) ∧
      (validate_content_length content .sms "body" = true ↔
        content.length ≤ 160) := by
  intro content
  refine ⟨?_, ?_, ?_⟩
  · intro h
    unfold prepare_sms_content
    rw [if_neg (by omega)]
  · intro h
    have he : prepare_sms_content content = content.take 1597 ++ "...".toList := by
      unfold prepare_sms_content
      rw [if_pos (by omega)]
    refine ⟨he, ?_⟩
    rw [he]
    simp
    omega
  · unfold validate_content_length get_max_content_length
    simp

/-- Witness for C9 (amended): a 160-character body and a 161-character body
are both delivered unmodified; the validator accepts the first and rejects
the second. -/
theorem sms_truncation_at_1600_witness :
    prepare_sms_content (List.replicate 160 'b') = List.replicate 160 'b' ∧
    prepare_sms_content (List.replicate 161 'b') = List.replicate 161 'b' ∧
    (validate_content_length (List.replicate 160 'b') .sms "body" = true ↔
      (List.replicate 160 'b').length ≤ 160) := by
  refine ⟨(sms_truncation_at_1600 (List.replicate 160 'b')).1 (by simp),
    (sms_truncation_at_1600 (List.replicate 161 'b')).1 (by simp),
    (sms_truncation_at_1600 (List.replicate 160 'b')).2.2⟩

/-! ## C7 — in-app queue effects -/

/-- Counterexample to claim C7: the two in-app adapters each violate part of
the claim.  `InAppNotificationChannel.send` (delivery_channels.py) performs
no `ltrim`, so a queue already holding 100 entries grows to 101; and
`InAppChannel.send` (notifications.py) sets a TTL of 86400 seconds (24
hours), not the claimed 7 days (604800 seconds). -/
theorem in_app_send_violations :
    (inAppDeliverySend (List.replicate 100 "p") none true true "q").queue.length
      = 101 ∧
    (inAppChannelSend [] "p").ttl = 86400 ∧ (86400 : Nat) ≠ 86400 * 7 := by
  refine ⟨?_, rfl, by omega⟩
  simp [inAppDeliverySend]

/-- Claim C7 (amended): `notifications.py`'s `InAppChannel.send` caps the
per-user queue at the 100 most recent entries, sets a 24-hour TTL, and
always publishes the payload on the user's pubsub channel;
`delivery_channels.py`'s `InAppNotificationChannel.send` appends without any
cap, sets a 7-day TTL (both only when a redis client is configured), and
emits a `new_notification` event exactly when a websocket client is
configured. -/
theorem in_app_send_behaviour :
    ∀ (q : List String) (payload : String) (ttl0 : Option Nat)
      (hasRedis hasWs : Bool),
      ((inAppChannelSend q payload).queue = (payload :: q).take 100 ∧
        (inAppChannelSend q payload).queue.length ≤ 100 ∧
        (inAppChannelSend q payload).ttl = 86400 ∧
        (inAppChannelSend q payload).published = [payload]) ∧
      (hasRedis = true →
        (inAppDeliverySend q ttl0 hasRedis hasWs payload).queue = payload :: q ∧
        (inAppDeliverySend q ttl0 hasRedis hasWs payload).ttl
          = some (86400 * 7)) ∧
      (hasRedis = false →
        (inAppDeliverySend q ttl0 hasRedis hasWs payload).queue = q ∧
        (inAppDeliverySend q ttl0 hasRedis hasWs payload).ttl = ttl0) ∧
      ((inAppDeliverySend q ttl0 hasRedis hasWs payload).emitted
        = if hasWs then [payload] else []) := by
  intro q payload ttl0 hasRedis hasWs
  refine ⟨⟨rfl, ?_, rfl, rfl⟩, ?_, ?_, rfl⟩
  · simp [inAppChannelSend]
  · intro h
    simp [inAppDeliverySend, h]
  · intro h
    simp [inAppDeliverySend, h]

/-- Witness for C7 (amended): concrete behaviour with a configured redis
client and no websocket client. -/
theorem in_app_send_behaviour_witness :
    (inAppChannelSend ["a"] "b").queue = ["b", "a"].take 100 ∧
    (inAppDeliverySend ["a"] none true false "b").queue = ["b", "a"] ∧
    (inAppDeliverySend ["a"] none true false "b").emitted = [] :=
  ⟨(in_app_send_behaviour ["a"] "b" none true false).1.1,
   ((in_app_send_behaviour ["a"] "b" none true false).2.1 rfl).1,
   (in_app_send_behaviour ["a"] "b" none true false).2.2.2⟩

/-! ## C2 — retry scheduling after a failed attempt -/

/-- Claim C2: after a failure status update (`Failed`, `Bounced` or
`Rejected`), the record is re-queued — `retry_count` incremented by one,
`next_retry_at` set, status `Queued` — if and only if the classified failure
kind is retryable and `retry_count < max_retries`; otherwise the record keeps
the terminal failure status.  The retryable kinds are exactly
`NetworkError`, `ServiceUnavailable`, `RateLimited`, `Timeout`,
`QuotaExceeded` and `Unknown`. -/
theorem update_failed_delivery_retry_iff :
    ∀ (r : DeliveryRecord) (s : DeliveryStatus) (msg : List Char)
      (code now : Nat),
      s = .failed ∨ s = .bounced ∨ s = .rejected →
      ((update_delivery_status r s msg code now).failure_reason
          = some (categorize_failure msg code) ∧
        ((update_delivery_status r s msg code now).status = .queued ↔
          (should_retry (categorize_failure msg code) = true ∧
            r.retry_count < r.max_retries)) ∧
        (should_retry (categorize_failure msg code) = true ∧
            r.retry_count < r.max_retries →
          (update_delivery_status r s msg code now).retry_count
              = r.retry_count + 1 ∧
          (update_delivery_status r s msg code now).next_retry_at
              = some (now + calculate_next_retry_delay (r.retry_count + 1))) ∧
        (¬ (should_retry (categorize_failure msg code) = true ∧
              r.retry_count < r.max_retries) →
          (update_delivery_status r s msg code now).status = s ∧
          (update_delivery_status r s msg code now).retry_count
              = r.retry_count ∧
          (update_delivery_status r s msg code now).next_retry_at
              = r.next_retry_at)) ∧
      (∀ fr : FailureReason, should_retry fr = true ↔
        fr ∈ [FailureReason.network_error, .service_unavailable, .rate_limited,
              .timeout, .quota_exceeded, .unknown]) := by
  intro r s msg code now hs
  have hretry : ∀ fr : FailureReason, should_retry fr = true ↔
      fr ∈ [FailureReason.network_error, .service_unavailable, .rate_limited,
            .timeout, .quota_exceeded, .unknown] := by
    intro fr; cases fr <;> decide
  refine ⟨?_, hretry⟩
  have hcases : (s = DeliveryStatus.failed ∨ s = .bounced ∨ s = .rejected) →
      (s ≠ .delivered ∧ s ≠ .read ∧ s ≠ .queued) := by
    rintro (rfl | rfl | rfl) <;> refine ⟨by decide, by decide, by decide⟩
  obtain ⟨hnd, hnr, hnq⟩ := hcases hs
  unfold update_delivery_status
  rw [if_neg hnd, if_neg hnr, if_pos hs]
  by_cases hc : r.retry_count < r.max_retries ∧
      should_retry (categorize_failure msg code) = true
  · rw [if_pos (by simpa using hc)]
    refine ⟨rfl, ?_, ?_, ?_⟩
    · simp [hc.1, hc.2]
    · intro _; exact ⟨rfl, rfl⟩
    · intro hcon; exact absurd ⟨hc.2, hc.1⟩ hcon
  · rw [if_neg (by simpa using hc)]
    refine ⟨rfl, ?_, ?_, ?_⟩
    · constructor
      · intro hq; exact absurd hq hnq
      · intro h; exact absurd ⟨h.2, h.1⟩ hc
    · intro h; exact absurd ⟨h.2, h.1⟩ hc
    · intro _; exact ⟨rfl, rfl, rfl⟩

/-- Witness for C2: a `Failed` update with a 503 response (classified
`ServiceUnavailable`, retryable) on a fresh record re-queues it with
`retry_count = 1`; the same update on a record out of budget keeps status
`Failed`. -/
theorem update_failed_delivery_retry_iff_witness :
    ((update_delivery_status freshRecord .failed [] 503 50).status = .queued ↔
      (should_retry (categorize_failure [] 503) = true ∧
        freshRecord.retry_count < freshRecord.max_retries)) ∧
    (¬ (should_retry (categorize_failure [] 503) = true ∧
          exhaustedRecord.retry_count < exhaustedRecord.max_retries) →
      (update_delivery_status exhaustedRecord .failed [] 503 50).status
        = .failed ∧
      (update_delivery_status exhaustedRecord .failed [] 503 50).retry_count
        = exhaustedRecord.retry_count ∧
      (update_delivery_status exhaustedRecord .failed [] 503 50).next_retry_at
        = exhaustedRecord.next_retry_at) :=
  ⟨(update_failed_delivery_retry_iff freshRecord .failed [] 503 50
      (Or.inl rfl)).1.2.1,
   (update_failed_delivery_retry_iff exhaustedRecord .failed [] 503 50
      (Or.inl rfl)).1.2.2.2⟩

/-! ## C5 — circuit breaker state machine -/

/-- In `Closed` or `HalfOpen` state, `call` runs the wrapped function and
applies the success/failure bookkeeping. -/
theorem call_fallthrough (cb : CircuitBreaker) (now : Nat) (success : Bool)
    (h : cb.state = .closed ∨ cb.state = .halfOpen) :
    cb.call now success
      = (if success then cb.on_success else cb.on_failure now, true) := by
  unfold CircuitBreaker.call
  rcases h with h | h <;> rw [h]

/-- In `Open` state with the reset window reached, `call` probes through
`HalfOpen`. -/
theorem call_open_ready (cb : CircuitBreaker) (now : Nat) (success : Bool)
    (h : cb.state = .opened) (hr : cb.should_attempt_reset now = true) :
    cb.call now success
      = (if success then ({ cb with state := .halfOpen }).on_success
         else ({ cb with state := .halfOpen }).on_failure now, true) := by
  unfold CircuitBreaker.call
  rw [h, hr]
  simp

/-- In `Open` state before the reset window, `call` rejects unchanged. -/
theorem call_open_wait (cb : CircuitBreaker) (now : Nat) (success : Bool)
    (h : cb.state = .opened) (hr : cb.should_attempt_reset now = false) :
    cb.call now success = (cb, false) := by
  unfold CircuitBreaker.call
  rw [h, hr]
  simp

/-- `_on_failure` establishes the open-state invariant. -/
theorem on_failure_inv (cb : CircuitBreaker) (now : Nat)
    (hprev : cb.state = .opened → cb.failure_threshold ≤ cb.failure_count) :
    (cb.on_failure now).state = .opened →
      (cb.on_failure now).failure_threshold ≤ (cb.on_failure now).failure_count ∧
      ((cb.on_failure now).last_failure_time).isSome := by
  unfold CircuitBreaker.on_failure
  dsimp only
  by_cases hth : cb.failure_count + 1 ≥ cb.failure_threshold
  · rw [if_pos hth]
    intro _
    exact ⟨by omega, by simp⟩
  · rw [if_neg hth]
    intro h
    exact ⟨by have := hprev h; omega, by simp⟩

/-- `_on_success` closes the breaker, so the open-state invariant is vacuous. -/
theorem on_success_inv (cb : CircuitBreaker) :
    (cb.on_success).state = .opened →
      (cb.on_success).failure_threshold ≤ (cb.on_success).failure_count ∧
      ((cb.on_success).last_failure_time).isSome := by
  intro h
  exact absurd h (by simp [CircuitBreaker.on_success])

/-- An open breaker whose fifth failure happened at time 0 (default
threshold and timeout). -/
def openBreaker : CircuitBreaker :=
  { failure_threshold := 5, recovery_timeout := 60, failure_count := 5,
    last_failure_time := some 0, state := .opened }

/-- Claim C5: the per-provider circuit breaker starts `Closed` with
threshold 5 and recovery timeout 60 s; from `Closed` it opens exactly when
the consecutive-failure count reaches the threshold (a success resets the
count to zero); while `Open` it rejects every call, unchanged, until the
recovery timeout has elapsed since the last failure, after which one probe
call runs through `HalfOpen`; a successful probe closes the breaker (count
reset) and a failed probe re-opens it.  The open-state invariant `CBInv` is
preserved by every call and holds initially. -/
theorem circuit_breaker_state_machine :
    (∀ (cb : CircuitBreaker) (now : Nat), cb.state = .closed →
      ((cb.call now true).1.state = .closed ∧
        (cb.call now true).1.failure_count = 0 ∧ (cb.call now true).2 = true)) ∧
    (∀ (cb : CircuitBreaker) (now : Nat), cb.state = .closed →
      ((cb.call now false).2 = true ∧
        (cb.call now false).1.failure_count = cb.failure_count + 1 ∧
        ((cb.call now false).1.state = .opened ↔
          cb.failure_threshold ≤ cb.failure_count + 1))) ∧
    (∀ (cb : CircuitBreaker) (now t : Nat) (success : Bool),
      cb.state = .opened → cb.last_failure_time = some t →
      now - t ≤ cb.recovery_timeout → cb.call now success = (cb, false)) ∧
    (∀ (cb : CircuitBreaker) (now t : Nat),
      cb.state = .opened → cb.last_failure_time = some t →
      cb.recovery_timeout < now - t →
      ((cb.call now true).1.state = .closed ∧
        (cb.call now true).1.failure_count = 0 ∧ (cb.call now true).2 = true)) ∧
    (∀ (cb : CircuitBreaker) (now t : Nat),
      cb.state = .opened → cb.last_failure_time = some t →
      cb.recovery_timeout < now - t →
      cb.failure_threshold ≤ cb.failure_count →
      ((cb.call now false).1.state = .opened ∧ (cb.call now false).2 = true)) ∧
    (∀ (cb : CircuitBreaker) (now : Nat) (success : Bool),
      CBInv cb → CBInv (cb.call now success).1) ∧
    (CBInv CircuitBreaker.init ∧ CircuitBreaker.init.failure_threshold = 5 ∧
      CircuitBreaker.init.recovery_timeout = 60 ∧
      CircuitBreaker.init.state = .closed) := by
  have hreset_true : ∀ (cb : CircuitBreaker) (now t : Nat),
      cb.last_failure_time = some t → cb.recovery_timeout < now - t →
      cb.should_attempt_reset now = true := by
    intro cb now t hlf hlt
    unfold CircuitBreaker.should_attempt_reset
    rw [hlf]
    simpa using hlt
  have hreset_false : ∀ (cb : CircuitBreaker) (now t : Nat),
      cb.last_failure_time = some t → now - t ≤ cb.recovery_timeout →
      cb.should_attempt_reset now = false := by
    intro cb now t hlf hle
    unfold CircuitBreaker.should_attempt_reset
    rw [hlf]
    simpa using hle
  refine ⟨?_, ?_, ?_, ?_, ?_, ?_, ?_⟩
  · intro cb now hcl
    rw [call_fallthrough cb now true (Or.inl hcl)]
    exact ⟨rfl, rfl, rfl⟩
  · intro cb now hcl
    rw [call_fallthrough cb now false (Or.inl hcl)]
    refine ⟨rfl, rfl, ?_⟩
    show (cb.on_failure now).state = .opened ↔
      cb.failure_threshold ≤ cb.failure_count + 1
    unfold CircuitBreaker.on_failure
    dsimp only
    rw [hcl]
    by_cases hth : cb.failure_count + 1 ≥ cb.failure_threshold
    · rw [if_pos hth]
      simp
      omega
    · rw [if_neg hth]
      simp
      omega
  · intro cb now t success hop hlf hle
    exact call_open_wait cb now success hop (hreset_false cb now t hlf hle)
  · intro cb now t hop hlf hlt
    rw [call_open_ready cb now true hop (hreset_true cb now t hlf hlt)]
    exact ⟨rfl, rfl, rfl⟩
  · intro cb now t hop hlf hlt hth
    rw [call_open_ready cb now false hop (hreset_true cb now t hlf hlt)]
    refine ⟨?_, rfl⟩
    show (({ cb with state := CBState.halfOpen }).on_failure now).state = .opened
    unfold CircuitBreaker.on_failure
    dsimp only
    rw [if_pos (show cb.failure_count + 1 ≥ cb.failure_threshold by omega)]
  · intro cb now success hinv
    unfold CBInv at hinv ⊢
    cases hst : cb.state with
    | closed =>
      cases success
      · rw [call_fallthrough cb now false (Or.inl hst)]
        exact on_failure_inv cb now
          (fun h => absurd (hst.symm.trans h) (by simp))
      · rw [call_fallthrough cb now true (Or.inl hst)]
        exact on_success_inv cb
    | halfOpen =>
      cases success
      · rw [call_fallthrough cb now false (Or.inr hst)]
        exact on_failure_inv cb now
          (fun h => absurd (hst.symm.trans h) (by simp))
      · rw [call_fallthrough cb now true (Or.inr hst)]
        exact on_success_inv cb
    | opened =>
      by_cases hr : cb.should_attempt_reset now = true
      · cases success
        · rw [call_open_ready cb now false hst hr]
          refine on_failure_inv _ now ?_
          intro h
          exact absurd h (by simp)
        · rw [call_open_ready cb now true hst hr]
          exact on_success_inv _
      · have hr' : cb.should_attempt_reset now = false := by
          cases hx : cb.should_attempt_reset now
          · rfl
          · exact absurd hx hr
        rw [call_open_wait cb now success hst hr']
        exact hinv
  · refine ⟨?_, rfl, rfl, rfl⟩
    intro h
    exact absurd h (by simp [CircuitBreaker.init])

/-- Witness for C5: the initial breaker records a first failure without
opening; the open breaker rejects a call 60 s after its last failure and
admits a closing probe at 61 s. -/
theorem circuit_breaker_state_machine_witness :
    ((CircuitBreaker.init.call 0 false).2 = true ∧
      (CircuitBreaker.init.call 0 false).1.failure_count
        = CircuitBreaker.init.failure_count + 1 ∧
      ((CircuitBreaker.init.call 0 false).1.state = .opened ↔
        CircuitBreaker.init.failure_threshold
          ≤ CircuitBreaker.init.failure_count + 1)) ∧
    (openBreaker.call 60 true = (openBreaker, false)) ∧
    ((openBreaker.call 61 true).1.state = .closed ∧
      (openBreaker.call 61 true).1.failure_count = 0) := by
  refine ⟨circuit_breaker_state_machine.2.1 CircuitBreaker.init 0 rfl, ?_, ?_⟩
  · exact circuit_breaker_state_machine.2.2.1 openBreaker 60 0 true rfl rfl
      (by decide)
  · have h := circuit_breaker_state_machine.2.2.2.1 openBreaker 61 0 rfl rfl
      (by decide)
    exact ⟨h.1, h.2.1⟩

/-! ## C8 — metric bucket additivity -/

/-- Division as a between-bounds condition. -/
theorem div_eq_iff_between (a k d : Nat) (hk : 0 < k) :
    a / k = d ↔ d * k ≤ a ∧ a < d * k + k := by
  constructor
  · intro h
    have h1 := Nat.div_add_mod a k
    have h2 := Nat.mod_lt a hk
    subst h
    constructor
    · have := Nat.div_mul_le_self a k
      omega
    · have h3 : k * (a / k) = (a / k) * k := Nat.mul_comm _ _
      omega
  · rintro ⟨h1, h2⟩
    have h3 := Nat.div_add_mod a k
    have h4 := Nat.mod_lt a hk
    have h5 : k * (a / k) = (a / k) * k := Nat.mul_comm _ _
    by_contra hne
    rcases Nat.lt_or_ge (a / k) d with hlt | hge
    · have : (a / k) * k + k ≤ d * k := by
        have := Nat.succ_le_of_lt hlt
        calc (a / k) * k + k = (a / k + 1) * k := by ring
        _ ≤ d * k := Nat.mul_le_mul_right k this
      omega
    · have hgt : d < a / k := by omega
      have : d * k + k ≤ (a / k) * k := by
        have := Nat.succ_le_of_lt hgt
        calc d * k + k = (d + 1) * k := by ring
        _ ≤ (a / k) * k := Nat.mul_le_mul_right k this
      omega

/-- Sums of pointwise additions split. -/
theorem sum_map_add {α : Type} (l : List α) (f g : α → Int) :
    (l.map (fun x => f x + g x)).sum = (l.map f).sum + (l.map g).sum := by
  induction l with
  | nil => simp
  | cons a l ih => simp [ih]; ring

/-- Summing a point indicator over a duplicate-free list. -/
theorem indicator_sum (m : Nat) (v : Int) (l : List Nat) (hl : l.Nodup) :
    (l.map (fun i => if i = m then v else 0)).sum = if m ∈ l then v else 0 := by
  induction l with
  | nil => simp
  | cons j l ih =>
    rcases List.nodup_cons.mp hl with ⟨hj, hl'⟩
    by_cases hjm : j = m
    · subst hjm
      have hnotin : j ∉ l := hj
      rw [List.map_cons, List.sum_cons, if_pos rfl, ih hl']
      simp [hnotin]
    · rw [List.map_cons, List.sum_cons, if_neg hjm, ih hl']
      have : (m ∈ j :: l) ↔ m ∈ l := by
        simp [Ne.symm hjm]
      simp [this]

/-- Summing the indicator of `a = d*k + i` over `i < k` picks out whether
`a` falls in the `d`-th block of width `k`. -/
theorem range_indicator (a : Nat) (v : Int) (k d : Nat) (hk : 0 < k) :
    ((List.range k).map (fun i => if a = d * k + i then v else 0)).sum
      = if a / k = d then v else 0 := by
  by_cases hda : d * k ≤ a
  · have hfe : (fun i => if a = d * k + i then v else 0)
        = (fun i => if i = a - d * k then v else 0) := by
      funext i
      congr 1
      apply propext
      omega
    rw [hfe, indicator_sum _ _ _ (List.nodup_range k)]
    have h1 : (a - d * k ∈ List.range k) ↔ a - d * k < k := List.mem_range
    by_cases h2 : a - d * k < k
    · rw [if_pos (h1.mpr h2),
        if_pos ((div_eq_iff_between a k d hk).mpr ⟨hda, by omega⟩)]
    · rw [if_neg (fun hx => h2 (h1.mp hx)), if_neg ?_]
      intro hdiv
      rcases (div_eq_iff_between a k d hk).mp hdiv with ⟨_, hlt⟩
      omega
  · have hfe : (fun i => if a = d * k + i then v else (0 : Int))
        = (fun _ => (0 : Int)) := by
      funext i
      rw [if_neg (by omega)]
    rw [hfe]
    rw [if_neg ?_]
    · simp
    · intro hdiv
      rcases (div_eq_iff_between a k d hk).mp hdiv with ⟨hge, _⟩
      omega

/-- Accumulated per-fine-bucket sums grouped `k` at a time equal the
coarse-bucket sum. -/
theorem sum_group (ev : List MetricEvent) (g : MetricEvent → Nat) (k d : Nat)
    (hk : 0 < k) :
    ((List.range k).map (fun i => sumAtKey ev g (d * k + i))).sum
      = sumAtKey ev (fun e => g e / k) d := by
  induction ev with
  | nil => simp [sumAtKey]
  | cons e ev ih =>
    have hcons : ∀ k', sumAtKey (e :: ev) g k'
        = (if g e = k' then e.value else 0) + sumAtKey ev g k' := by
      intro k'; simp [sumAtKey]
    calc ((List.range k).map (fun i => sumAtKey (e :: ev) g (d * k + i))).sum
        = ((List.range k).map (fun i =>
            (if g e = d * k + i then e.value else 0)
              + sumAtKey ev g (d * k + i))).sum := by
          simp only [hcons]
      _ = ((List.range k).map
            (fun i => if g e = d * k + i then e.value else 0)).sum
          + ((List.range k).map (fun i => sumAtKey ev g (d * k + i))).sum :=
          sum_map_add _ _ _
      _ = (if g e / k = d then e.value else 0)
          + sumAtKey ev (fun e => g e / k) d := by
          rw [range_indicator _ _ _ _ hk, ih]
      _ = sumAtKey (e :: ev) (fun e => g e / k) d := by
          simp [sumAtKey]

/-- A key with no matching event accumulates zero. -/
theorem sumAtKey_eq_zero (ev : List MetricEvent) (g : MetricEvent → Nat)
    (k : Nat) (h : ∀ e ∈ ev, g e ≠ k) : sumAtKey ev g k = 0 := by
  induction ev with
  | nil => rfl
  | cons e ev ih =>
    have h1 : g e ≠ k := h e (by simp)
    have h2 : ∀ x ∈ ev, g x ≠ k := fun x hx => h x (by simp [hx])
    simp [sumAtKey, h1, ih h2]
    simp [sumAtKey] at ih
    exact ih h2

/-- Under pairwise-distinct minute keys, the overwriting minute bucket
coincides with the accumulating sum. -/
theorem minuteBucket_eq_sum (ev : List MetricEvent)
    (hnd : (ev.map (fun e => e.minute)).Nodup) (m : Nat) :
    minuteBucket ev m = sumAtKey ev (fun e => e.minute) m := by
  induction ev with
  | nil => rfl
  | cons e ev ih =>
    rw [List.map_cons, List.nodup_cons] at hnd
    rcases hnd with ⟨hnotin, hnd'⟩
    by_cases hem : e.minute = m
    · have hmem : ∀ x ∈ ev, x.minute ≠ m := by
        intro x hx hxm
        exact hnotin (by rw [hem, ← hxm]; exact List.mem_map_of_mem _ hx)
      have hrest : ev.filter (fun x => x.minute = m) = [] := by
        apply List.filter_eq_nil_iff.mpr
        intro x hx
        simpa using hmem x hx
      have hzero : sumAtKey ev (fun e => e.minute) m = 0 :=
        sumAtKey_eq_zero ev _ m hmem
      unfold minuteBucket
      rw [List.filter_cons_of_pos (by simp [hem]), hrest]
      show e.value = sumAtKey (e :: ev) (fun e => e.minute) m
      rw [show sumAtKey (e :: ev) (fun e => e.minute) m
          = e.value + sumAtKey ev (fun e => e.minute) m from by
            simp [sumAtKey, hem], hzero]
      ring
    · unfold minuteBucket
      rw [List.filter_cons_of_neg (by simp [hem])]
      have := ih hnd'
      unfold minuteBucket at this
      rw [this]
      simp [sumAtKey, hem]

/-- Counterexample to claim C8: two counter events of value 1 flushed in
the same minute.  The minute-level store (`zadd`) overwrites the member's
score, keeping 1, while the hour-level store (`zincrby`) accumulates 2, so
the minute buckets of the hour sum to 1 ≠ 2. -/
theorem minute_buckets_not_additive :
    minuteSumOverHour [⟨0, 1⟩, ⟨0, 1⟩] 0 = 1 ∧
    hourBucket [⟨0, 1⟩, ⟨0, 1⟩] 0 = 2 ∧ (1 : Int) ≠ 2 := by
  refine ⟨rfl, rfl, by omega⟩

/-- Claim C8 (amended): for every counter metric key the sum of the 24
hour-bucket values of a day equals the day-bucket value (both levels use
`zincrby`); the sum of the 60 minute-bucket values of an hour equals the
hour-bucket value only under the additional assumption that no two events
of the key share a minute, because the minute level stores with `zadd`,
which overwrites instead of accumulating. -/
theorem metric_bucket_additivity :
    (∀ (ev : List MetricEvent) (d : Nat),
      hourSumOverDay ev d = dayBucket ev d) ∧
    (∀ (ev : List MetricEvent) (h : Nat),
      (ev.map (fun e => e.minute)).Nodup →
      minuteSumOverHour ev h = hourBucket ev h) := by
  constructor
  · intro ev d
    unfold hourSumOverDay hourBucket dayBucket
    rw [sum_group ev (fun e => e.minute / 60) 24 d (by norm_num)]
    have : (fun e : MetricEvent => e.minute / 60 / 24)
        = (fun e : MetricEvent => e.minute / 1440) := by
      funext e
      rw [Nat.div_div_eq_div_mul]
    rw [this]
  · intro ev h hnd
    unfold minuteSumOverHour hourBucket
    have : (fun i => minuteBucket ev (h * 60 + i))
        = (fun i => sumAtKey ev (fun e => e.minute) (h * 60 + i)) := by
      funext i
      exact minuteBucket_eq_sum ev hnd _
    rw [this, sum_group ev (fun e => e.minute) 60 h (by norm_num)]

/-- Witness for C8 (amended): two events in distinct minutes of hour 0. -/
theorem metric_bucket_additivity_witness :
    hourSumOverDay [⟨0, 2⟩, ⟨61, 3⟩] 0 = dayBucket [⟨0, 2⟩, ⟨61, 3⟩] 0 ∧
    (([⟨0, 2⟩, ⟨61, 3⟩] : List MetricEvent).map (fun e => e.minute)).Nodup ∧
    minuteSumOverHour [⟨0, 2⟩, ⟨61, 3⟩] 0 = hourBucket [⟨0, 2⟩, ⟨61, 3⟩] 0 :=
  ⟨metric_bucket_additivity.1 _ 0, by decide,
   metric_bucket_additivity.2 _ 0 (by decide)⟩

end Naebak
